import Mathlib

/-!
Verification model of `wgpu_glyph` (src/pipeline.rs).

Real-number (`f32`) arithmetic of the source is embedded as exact rational
arithmetic over `ℚ`; the `i32` pixel coordinates are embedded as `ℤ` and cast
to `ℚ` where the source casts them to `f32`.  GPU resources (buffers,
samplers, textures, bind groups, pipelines) are embedded as identifier
records allocated from a fresh-id device counter, and command recording is
embedded as a list of explicit commands.
-/

namespace WgpuGlyph

/-- A 2-d point with rational coordinates (source: `rusttype::Point<f32>`). -/
structure Pt where
  x : ℚ
  y : ℚ
deriving DecidableEq, Repr

/-- An axis-aligned rectangle (source: `rusttype::Rect<f32>`). -/
structure Rect where
  min : Pt
  max : Pt
deriving DecidableEq, Repr

/-- Rusttype `Rect::width`: `max.x - min.x`. -/
def Rect.width (r : Rect) : ℚ := r.max.x - r.min.x

/-- Rusttype `Rect::height`: `max.y - min.y`. -/
def Rect.height (r : Rect) : ℚ := r.max.y - r.min.y

/-- A 2-d point with integer coordinates (source: `rusttype::Point<i32>`). -/
structure PtZ where
  x : ℤ
  y : ℤ
deriving DecidableEq, Repr

/-- An axis-aligned integer rectangle (source: `rusttype::Rect<i32>`). -/
structure RectZ where
  min : PtZ
  max : PtZ
deriving DecidableEq, Repr

/-- A 3-d vector, the `[f32; 3]` field of `Instance`. -/
structure Vec3 where
  x : ℚ
  y : ℚ
  z : ℚ
deriving DecidableEq, Repr

/-- An RGBA color, the `[f32; 4]` fields of `GlyphVertex` and `Instance`. -/
structure Color where
  r : ℚ
  g : ℚ
  b : ℚ
  a : ℚ
deriving DecidableEq, Repr

/-- The input descriptor `glyph_brush::GlyphVertex`. -/
structure GlyphVertex where
  tex_coords : Rect
  pixel_coords : RectZ
  bounds : Rect
  screen_dimensions : ℚ × ℚ
  color : Color
  z : ℚ
deriving DecidableEq, Repr

/-- The per-glyph instance record `Instance` of the pipeline. -/
structure Instance where
  left_top : Vec3
  right_bottom : Pt
  tex_left_top : Pt
  tex_right_bottom : Pt
  color : Color
deriving DecidableEq, Repr

/-- Source constant `Instance::MAX`: the fixed instance-buffer capacity. -/
def Instance.MAX : ℕ := 50000

/-- Byte size of `Instance`, i.e. `mem::size_of::<Instance>()`: 13 tightly packed `f32` fields. -/
def Instance.byteSize : ℕ := 4 * (3 + 2 + 2 + 2 + 4)

/-- The pixel-to-NDC conversion used in `From<GlyphVertex> for Instance`:
`2.0 * (p / screen_dim - 0.5)`. -/
def toNDC (p screenDim : ℚ) : ℚ := 2 * (p / screenDim - 1 / 2)

/-- Source local `gl_bounds`: the `bounds` rectangle converted to NDC. -/
def glBounds (v : GlyphVertex) : Rect :=
  { min := ⟨toNDC v.bounds.min.x v.screen_dimensions.1,
            toNDC v.bounds.min.y v.screen_dimensions.2⟩,
    max := ⟨toNDC v.bounds.max.x v.screen_dimensions.1,
            toNDC v.bounds.max.y v.screen_dimensions.2⟩ }

/-- Source local `gl_rect` before clipping: the integer `pixel_coords` cast to `f32` and
converted to NDC. -/
def glRect0 (v : GlyphVertex) : Rect :=
  { min := ⟨toNDC (v.pixel_coords.min.x : ℚ) v.screen_dimensions.1,
            toNDC (v.pixel_coords.min.y : ℚ) v.screen_dimensions.2⟩,
    max := ⟨toNDC (v.pixel_coords.max.x : ℚ) v.screen_dimensions.1,
            toNDC (v.pixel_coords.max.y : ℚ) v.screen_dimensions.2⟩ }

/-- First clipping step: `if gl_rect.max.x > gl_bounds.max.x { ... }`. -/
def clipMaxX (b r t : Rect) : Rect × Rect :=
  if r.max.x > b.max.x then
    let oldWidth := r.width
    let r2 : Rect := { r with max.x := b.max.x }
    (r2, { t with max.x := t.min.x + t.width * r2.width / oldWidth })
  else (r, t)

/-- Second clipping step: `if gl_rect.min.x < gl_bounds.min.x { ... }`. -/
def clipMinX (b r t : Rect) : Rect × Rect :=
  if r.min.x < b.min.x then
    let oldWidth := r.width
    let r2 : Rect := { r with min.x := b.min.x }
    (r2, { t with min.x := t.max.x - t.width * r2.width / oldWidth })
  else (r, t)

/-- Third clipping step: `if gl_rect.max.y > gl_bounds.max.y { ... }`. -/
def clipMaxY (b r t : Rect) : Rect × Rect :=
  if r.max.y > b.max.y then
    let oldHeight := r.height
    let r2 : Rect := { r with max.y := b.max.y }
    (r2, { t with max.y := t.min.y + t.height * r2.height / oldHeight })
  else (r, t)

/-- Fourth clipping step: `if gl_rect.min.y < gl_bounds.min.y { ... }`. -/
def clipMinY (b r t : Rect) : Rect × Rect :=
  if r.min.y < b.min.y then
    let oldHeight := r.height
    let r2 : Rect := { r with min.y := b.min.y }
    (r2, { t with min.y := t.max.y - t.height * r2.height / oldHeight })
  else (r, t)

/-- The four sequential clipping steps of the conversion, in source order. -/
def clipAll (b r t : Rect) : Rect × Rect :=
  let p1 := clipMaxX b r t
  let p2 := clipMinX b p1.1 p1.2
  let p3 := clipMaxY b p2.1 p2.2
  clipMinY b p3.1 p3.2

/-- The clipped NDC quad of a descriptor. -/
def clippedRect (v : GlyphVertex) : Rect :=
  (clipAll (glBounds v) (glRect0 v) v.tex_coords).1

/-- The clipped texture-coordinate rectangle of a descriptor. -/
def clippedTex (v : GlyphVertex) : Rect :=
  (clipAll (glBounds v) (glRect0 v) v.tex_coords).2

/-- Source conversion `From<glyph_brush::GlyphVertex> for Instance`. -/
def Instance.fromVertex (v : GlyphVertex) : Instance :=
  let rt := clipAll (glBounds v) (glRect0 v) v.tex_coords
  { left_top := ⟨rt.1.min.x, rt.1.max.y, v.z⟩,
    right_bottom := ⟨rt.1.max.x, rt.1.min.y⟩,
    tex_left_top := ⟨rt.2.min.x, rt.2.max.y⟩,
    tex_right_bottom := ⟨rt.2.max.x, rt.2.min.y⟩,
    color := v.color }

/-- A GPU device, embedded as a fresh-identifier counter for created
resources. -/
structure Device where
  fresh : ℕ
deriving DecidableEq, Repr

/-- Allocate a fresh resource identifier from the device. -/
def Device.alloc (d : Device) : ℕ × Device := (d.fresh, ⟨d.fresh + 1⟩)

/-- A GPU buffer: its identifier and its byte size. -/
structure Buffer where
  id : ℕ
  size : ℕ
deriving DecidableEq, Repr

/-- Modelled from the spec: `cache.rs` (module `cache`, the Texture Cache)
is not among the sources; §4.2 requires that, given width and height, it
produce a GPU texture and an associated sampleable view, and support
wholesale replacement.  The texture and view are fresh device resources. -/
structure Cache where
  texture : ℕ
  view : ℕ
  width : ℕ
  height : ℕ
deriving DecidableEq, Repr

/-- Modelled from the spec: `Cache::new(device, width, height)` creates a
GPU texture of the given dimensions and a sampleable view of it. -/
def Cache.new (d : Device) (width height : ℕ) : Cache × Device :=
  let (tex, d1) := d.alloc
  let (view, d2) := d1.alloc
  (⟨tex, view, width, height⟩, d2)

/-- A bind group, recorded as the three resources its bindings reference:
binding 0 the transform buffer, binding 1 the sampler, binding 2 the cache
texture view. -/
structure BindGroup where
  transform : ℕ
  sampler : ℕ
  texture_view : ℕ
deriving DecidableEq, Repr

/-- Source helper `Pipeline::create_uniforms`: build the bind group wiring the transform
buffer, the sampler and the cache view. -/
def createUniforms (transform sampler cacheView : ℕ) : BindGroup :=
  ⟨transform, sampler, cacheView⟩

/-- The `Pipeline` state struct. -/
structure Pipeline where
  transform : Buffer
  sampler : ℕ
  cache : Cache
  uniform_layout : ℕ
  uniforms : BindGroup
  instances : Buffer
  pipeline : ℕ
  current_instances : ℕ
deriving DecidableEq, Repr

/-- Source `Pipeline::new`: allocate the transform buffer, sampler, initial cache,
bind-group layout, bind group, instance buffer and render pipeline, in
source order, and start with `current_instances = 0`. -/
def Pipeline.new (d : Device) (cacheWidth cacheHeight : ℕ) :
    Pipeline × Device :=
  let (transformId, d1) := d.alloc
  let transform : Buffer := ⟨transformId, 16 * 4⟩
  let (sampler, d2) := d1.alloc
  let (cache, d3) := Cache.new d2 cacheWidth cacheHeight
  let (uniformLayout, d4) := d3.alloc
  let uniforms := createUniforms transform.id sampler cache.view
  let (instancesId, d5) := d4.alloc
  let instances : Buffer := ⟨instancesId, Instance.byteSize * Instance.MAX⟩
  let (pipelineId, d6) := d5.alloc
  ({ transform := transform,
     sampler := sampler,
     cache := cache,
     uniform_layout := uniformLayout,
     uniforms := uniforms,
     instances := instances,
     pipeline := pipelineId,
     current_instances := 0 }, d6)

/-- Source `Pipeline::increase_cache_size`: replace the cache by a newly created
one at the given dimensions and rebuild the bind group against its view. -/
def Pipeline.increase_cache_size (p : Pipeline) (d : Device)
    (width height : ℕ) : Pipeline × Device :=
  let (cache, d1) := Cache.new d width height
  ({ p with
     cache := cache,
     uniforms := createUniforms p.transform.id p.sampler cache.view }, d1)

/-- A recorded GPU command: a buffer-to-buffer copy, or the render pass
issued by `redraw` (pipeline, bind group, vertex buffer, vertex range,
instance range). -/
inductive Command where
  | copyBufferToBuffer (src srcOffset dst dstOffset bytes : ℕ)
  | renderPass (pipeline : ℕ) (bindGroup : BindGroup) (vertexBuffer : ℕ)
      (vertices : ℕ × ℕ) (instanceRange : ℕ × ℕ)
deriving DecidableEq, Repr

/-- Source `Pipeline::redraw`: record one render pass on the target that binds the
pipeline, the bind group and the instance buffer and draws vertices `0..4`
over instances `0..current_instances`.  It takes `&self`: it reads the
state and returns a command without modifying any field. -/
def Pipeline.redraw (p : Pipeline) : Command :=
  Command.renderPass p.pipeline p.uniforms p.instances.id (0, 4)
    (0, p.current_instances)

/-- Source `Pipeline::draw`: stage and copy the transform (16 floats, 64 bytes)
into the transform buffer, stage and copy
`size_of::<Instance>() * instances.len()` bytes into the instance buffer,
record the instance count, then `redraw`. -/
def Pipeline.draw (p : Pipeline) (d : Device) (instances : List Instance) :
    Pipeline × List Command × Device :=
  let (transformBufferId, d1) := d.alloc
  let c1 := Command.copyBufferToBuffer transformBufferId 0 p.transform.id 0
    (16 * 4)
  let (instanceBufferId, d2) := d1.alloc
  let c2 := Command.copyBufferToBuffer instanceBufferId 0 p.instances.id 0
    (Instance.byteSize * instances.length)
  let p2 := { p with current_instances := instances.length }
  (p2, [c1, c2, p2.redraw], d2)

/-! ### Concrete example inputs -/

/-- A descriptor on a 2×2 screen whose pixel quad coincides with its
bounds: no clipping is needed. -/
def vInside : GlyphVertex :=
  { tex_coords := ⟨⟨0, 0⟩, ⟨1, 1⟩⟩,
    pixel_coords := ⟨⟨0, 0⟩, ⟨2, 2⟩⟩,
    bounds := ⟨⟨0, 0⟩, ⟨2, 2⟩⟩,
    screen_dimensions := (2, 2),
    color := ⟨1, 1, 1, 1⟩,
    z := 0 }

/-- A descriptor on a 2×2 screen clipped on exactly the max-x edge: the
bounds stop at pixel x = 1 while the quad extends to pixel x = 2. -/
def vClipX : GlyphVertex :=
  { tex_coords := ⟨⟨0, 0⟩, ⟨1, 1⟩⟩,
    pixel_coords := ⟨⟨0, 0⟩, ⟨2, 2⟩⟩,
    bounds := ⟨⟨0, 0⟩, ⟨1, 2⟩⟩,
    screen_dimensions := (2, 2),
    color := ⟨1, 1, 1, 1⟩,
    z := 0 }

/-- A descriptor on a 2×2 screen whose pixel quad lies fully to the right
of its bounds on the x axis (bounds end at pixel x = 3/2, the quad spans
pixel x = 2..3). -/
def vOutside : GlyphVertex :=
  { tex_coords := ⟨⟨0, 0⟩, ⟨1, 1⟩⟩,
    pixel_coords := ⟨⟨2, 0⟩, ⟨3, 2⟩⟩,
    bounds := ⟨⟨0, 0⟩, ⟨3 / 2, 2⟩⟩,
    screen_dimensions := (2, 2),
    color := ⟨1, 1, 1, 1⟩,
    z := 0 }

/-- A concrete instance record, for buffer-upload examples. -/
def inst0 : Instance := ⟨⟨0, 0, 0⟩, ⟨0, 0⟩, ⟨0, 0⟩, ⟨0, 0⟩, ⟨0, 0, 0, 0⟩⟩

/-- A fresh device. -/
def dev0 : Device := ⟨0⟩

/-! ### Helper lemmas on the clipping steps -/

theorem clipMaxX_of_le {b r : Rect} (t : Rect) (h : r.max.x ≤ b.max.x) :
    clipMaxX b r t = (r, t) := by
  simp [clipMaxX, not_lt.2 h]

theorem clipMinX_of_le {b r : Rect} (t : Rect) (h : b.min.x ≤ r.min.x) :
    clipMinX b r t = (r, t) := by
  simp [clipMinX, not_lt.2 h]

theorem clipMaxY_of_le {b r : Rect} (t : Rect) (h : r.max.y ≤ b.max.y) :
    clipMaxY b r t = (r, t) := by
  simp [clipMaxY, not_lt.2 h]

theorem clipMinY_of_le {b r : Rect} (t : Rect) (h : b.min.y ≤ r.min.y) :
    clipMinY b r t = (r, t) := by
  simp [clipMinY, not_lt.2 h]

theorem clipAll_of_inside {b r : Rect} (t : Rect)
    (h1 : r.max.x ≤ b.max.x) (h2 : b.min.x ≤ r.min.x)
    (h3 : r.max.y ≤ b.max.y) (h4 : b.min.y ≤ r.min.y) :
    clipAll b r t = (r, t) := by
  simp [clipAll, clipMaxX_of_le t h1, clipMinX_of_le t h2,
    clipMaxY_of_le t h3, clipMinY_of_le t h4]

/-- Closed form of the geometric component of the four clipping steps:
each coordinate is clamped independently of the others. -/
theorem clipAll_fst (b r t : Rect) :
    (clipAll b r t).1 =
      ⟨⟨if r.min.x < b.min.x then b.min.x else r.min.x,
        if r.min.y < b.min.y then b.min.y else r.min.y⟩,
       ⟨if r.max.x > b.max.x then b.max.x else r.max.x,
        if r.max.y > b.max.y then b.max.y else r.max.y⟩⟩ := by
  simp only [clipAll, clipMaxX, clipMinX, clipMaxY, clipMinY]
  split_ifs <;> rfl

theorem clipAll_fst_max_x (b r t : Rect) :
    (clipAll b r t).1.max.x ≤ b.max.x := by
  rw [clipAll_fst]
  dsimp only
  split_ifs with h
  · exact le_refl _
  · exact not_lt.1 h

theorem clipAll_fst_min_x (b r t : Rect) :
    b.min.x ≤ (clipAll b r t).1.min.x := by
  rw [clipAll_fst]
  dsimp only
  split_ifs with h
  · exact le_refl _
  · exact not_lt.1 h

theorem clipAll_fst_max_y (b r t : Rect) :
    (clipAll b r t).1.max.y ≤ b.max.y := by
  rw [clipAll_fst]
  dsimp only
  split_ifs with h
  · exact le_refl _
  · exact not_lt.1 h

theorem clipAll_fst_min_y (b r t : Rect) :
    b.min.y ≤ (clipAll b r t).1.min.y := by
  rw [clipAll_fst]
  dsimp only
  split_ifs with h
  · exact le_refl _
  · exact not_lt.1 h

/-- Monotonicity of the pixel-to-NDC conversion in the pixel coordinate,
for a positive screen dimension. -/
theorem toNDC_mono {p q d : ℚ} (hd : 0 < d) (h : p ≤ q) :
    toNDC p d ≤ toNDC q d := by
  unfold toNDC
  have hpq : p / d ≤ q / d := (div_le_div_iff_of_pos_right hd).mpr h
  linarith

/-! ### Claim theorems -/

/-- C3: for every glyph vertex descriptor the emitted `Instance` has
`left_top = (clipped min.x, clipped max.y, z)`,
`right_bottom = (clipped max.x, clipped min.y)`,
`tex_left_top = (tex.min.x, tex.max.y)`,
`tex_right_bottom = (tex.max.x, tex.min.y)` — the y-flip convention applied
to both geometric and texture coordinates — and the color passed through
unchanged. -/
theorem fromVertex_fields (v : GlyphVertex) :
    (Instance.fromVertex v).left_top =
        ⟨(clippedRect v).min.x, (clippedRect v).max.y, v.z⟩ ∧
    (Instance.fromVertex v).right_bottom =
        ⟨(clippedRect v).max.x, (clippedRect v).min.y⟩ ∧
    (Instance.fromVertex v).tex_left_top =
        ⟨(clippedTex v).min.x, (clippedTex v).max.y⟩ ∧
    (Instance.fromVertex v).tex_right_bottom =
        ⟨(clippedTex v).max.x, (clippedTex v).min.y⟩ ∧
    (Instance.fromVertex v).color = v.color := by
  exact ⟨rfl, rfl, rfl, rfl, rfl⟩

/-- C4: both the bounds rectangle and the pixel quad are converted from
pixel space to NDC by `ndc = 2 * (pixel / screen_dim) - 1`, applied
independently per axis, with the screen width for x and the screen height
for y. -/
theorem ndc_conversion_formula (v : GlyphVertex) :
    (glBounds v).min.x = 2 * (v.bounds.min.x / v.screen_dimensions.1) - 1 ∧
    (glBounds v).min.y = 2 * (v.bounds.min.y / v.screen_dimensions.2) - 1 ∧
    (glBounds v).max.x = 2 * (v.bounds.max.x / v.screen_dimensions.1) - 1 ∧
    (glBounds v).max.y = 2 * (v.bounds.max.y / v.screen_dimensions.2) - 1 ∧
    (glRect0 v).min.x =
      2 * ((v.pixel_coords.min.x : ℚ) / v.screen_dimensions.1) - 1 ∧
    (glRect0 v).min.y =
      2 * ((v.pixel_coords.min.y : ℚ) / v.screen_dimensions.2) - 1 ∧
    (glRect0 v).max.x =
      2 * ((v.pixel_coords.max.x : ℚ) / v.screen_dimensions.1) - 1 ∧
    (glRect0 v).max.y =
      2 * ((v.pixel_coords.max.y : ℚ) / v.screen_dimensions.2) - 1 := by
  refine ⟨?_, ?_, ?_, ?_, ?_, ?_, ?_, ?_⟩ <;>
    simp only [glBounds, glRect0, toNDC] <;> ring

/-- C6: the clipping step of the conversion is idempotent — re-running the
four clipping steps on their own output, with the bounds unchanged, yields
the same output. -/
theorem clip_idempotent (v : GlyphVertex) :
    clipAll (glBounds v) (clippedRect v) (clippedTex v) =
      (clippedRect v, clippedTex v) := by
  exact clipAll_of_inside _
    (clipAll_fst_max_x _ _ _) (clipAll_fst_min_x _ _ _)
    (clipAll_fst_max_y _ _ _) (clipAll_fst_min_y _ _ _)

/-- C9: for every glyph vertex descriptor the emitted quad is contained in
the NDC-converted bounds per axis: `left_top.x` is at least the NDC bounds
`min.x`, `right_bottom.x` at most the NDC bounds `max.x`, `right_bottom.y`
at least the NDC bounds `min.y`, and `left_top.y` at most the NDC bounds
`max.y`. -/
theorem instance_inside_bounds (v : GlyphVertex) :
    (glBounds v).min.x ≤ (Instance.fromVertex v).left_top.x ∧
    (Instance.fromVertex v).right_bottom.x ≤ (glBounds v).max.x ∧
    (glBounds v).min.y ≤ (Instance.fromVertex v).right_bottom.y ∧
    (Instance.fromVertex v).left_top.y ≤ (glBounds v).max.y := by
  exact ⟨clipAll_fst_min_x _ _ _, clipAll_fst_max_x _ _ _,
    clipAll_fst_min_y _ _ _, clipAll_fst_max_y _ _ _⟩

/-- C5: for every descriptor whose pixel quad lies fully inside its bounds
rectangle (on a screen with positive dimensions), the conversion performs
no clipping and no texture-coordinate rescaling: the output is the plain
pixel-to-NDC conversion of the quad with the input texture coordinates
passed through. -/
theorem inside_bounds_no_clip (v : GlyphVertex)
    (hw : 0 < v.screen_dimensions.1) (hh : 0 < v.screen_dimensions.2)
    (h1 : v.bounds.min.x ≤ (v.pixel_coords.min.x : ℚ))
    (h2 : (v.pixel_coords.max.x : ℚ) ≤ v.bounds.max.x)
    (h3 : v.bounds.min.y ≤ (v.pixel_coords.min.y : ℚ))
    (h4 : (v.pixel_coords.max.y : ℚ) ≤ v.bounds.max.y) :
    Instance.fromVertex v =
      { left_top := ⟨(glRect0 v).min.x, (glRect0 v).max.y, v.z⟩,
        right_bottom := ⟨(glRect0 v).max.x, (glRect0 v).min.y⟩,
        tex_left_top := ⟨v.tex_coords.min.x, v.tex_coords.max.y⟩,
        tex_right_bottom := ⟨v.tex_coords.max.x, v.tex_coords.min.y⟩,
        color := v.color } := by
  have c1 : (glRect0 v).max.x ≤ (glBounds v).max.x := toNDC_mono hw h2
  have c2 : (glBounds v).min.x ≤ (glRect0 v).min.x := toNDC_mono hw h1
  have c3 : (glRect0 v).max.y ≤ (glBounds v).max.y := toNDC_mono hh h4
  have c4 : (glBounds v).min.y ≤ (glRect0 v).min.y := toNDC_mono hh h3
  simp only [Instance.fromVertex, clipAll_of_inside v.tex_coords c1 c2 c3 c4]

/-- Witness for C5 at the concrete descriptor `vInside`. -/
theorem inside_bounds_no_clip_witness :
    (0 < vInside.screen_dimensions.1 ∧ 0 < vInside.screen_dimensions.2 ∧
      vInside.bounds.min.x ≤ (vInside.pixel_coords.min.x : ℚ) ∧
      (vInside.pixel_coords.max.x : ℚ) ≤ vInside.bounds.max.x ∧
      vInside.bounds.min.y ≤ (vInside.pixel_coords.min.y : ℚ) ∧
      (vInside.pixel_coords.max.y : ℚ) ≤ vInside.bounds.max.y) ∧
    Instance.fromVertex vInside =
      { left_top := ⟨(glRect0 vInside).min.x, (glRect0 vInside).max.y,
          vInside.z⟩,
        right_bottom := ⟨(glRect0 vInside).max.x, (glRect0 vInside).min.y⟩,
        tex_left_top := ⟨vInside.tex_coords.min.x, vInside.tex_coords.max.y⟩,
        tex_right_bottom :=
          ⟨vInside.tex_coords.max.x, vInside.tex_coords.min.y⟩,
        color := vInside.color } :=
  ⟨⟨by decide, by decide, by decide, by decide, by decide, by decide⟩,
    inside_bounds_no_clip vInside (by decide) (by decide) (by decide)
      (by decide) (by decide) (by decide)⟩

/-- Result of the clipping steps when only the max-x condition fires. -/
theorem clipAll_only_maxX {b r : Rect} (t : Rect)
    (hc1 : r.max.x > b.max.x) (hc2 : ¬ r.min.x < b.min.x)
    (hc3 : ¬ r.max.y > b.max.y) (hc4 : ¬ r.min.y < b.min.y) :
    clipAll b r t =
      ({ r with max.x := b.max.x },
       { t with max.x :=
          t.min.x + t.width * (b.max.x - r.min.x) / r.width }) := by
  simp only [clipAll, clipMaxX, if_pos hc1]
  simp only [clipMinX, if_neg hc2]
  simp only [clipMaxY, if_neg hc3]
  simp only [clipMinY, if_neg hc4]
  rfl

/-- Result of the clipping steps when only the min-x condition fires. -/
theorem clipAll_only_minX {b r : Rect} (t : Rect)
    (hc1 : ¬ r.max.x > b.max.x) (hc2 : r.min.x < b.min.x)
    (hc3 : ¬ r.max.y > b.max.y) (hc4 : ¬ r.min.y < b.min.y) :
    clipAll b r t =
      ({ r with min.x := b.min.x },
       { t with min.x :=
          t.max.x - t.width * (r.max.x - b.min.x) / r.width }) := by
  simp only [clipAll, clipMaxX, if_neg hc1]
  simp only [clipMinX, if_pos hc2]
  simp only [clipMaxY, if_neg hc3]
  simp only [clipMinY, if_neg hc4]
  rfl

/-- Result of the clipping steps when only the max-y condition fires. -/
theorem clipAll_only_maxY {b r : Rect} (t : Rect)
    (hc1 : ¬ r.max.x > b.max.x) (hc2 : ¬ r.min.x < b.min.x)
    (hc3 : r.max.y > b.max.y) (hc4 : ¬ r.min.y < b.min.y) :
    clipAll b r t =
      ({ r with max.y := b.max.y },
       { t with max.y :=
          t.min.y + t.height * (b.max.y - r.min.y) / r.height }) := by
  simp only [clipAll, clipMaxX, if_neg hc1]
  simp only [clipMinX, if_neg hc2]
  simp only [clipMaxY, if_pos hc3]
  simp only [clipMinY, if_neg hc4]
  rfl

/-- Result of the clipping steps when only the min-y condition fires. -/
theorem clipAll_only_minY {b r : Rect} (t : Rect)
    (hc1 : ¬ r.max.x > b.max.x) (hc2 : ¬ r.min.x < b.min.x)
    (hc3 : ¬ r.max.y > b.max.y) (hc4 : r.min.y < b.min.y) :
    clipAll b r t =
      ({ r with min.y := b.min.y },
       { t with min.y :=
          t.max.y - t.height * (r.max.y - b.min.y) / r.height }) := by
  simp only [clipAll, clipMaxX, if_neg hc1]
  simp only [clipMinX, if_neg hc2]
  simp only [clipMaxY, if_neg hc3]
  simp only [clipMinY, if_pos hc4]
  rfl

/-- C1: for every descriptor clipped on exactly one edge of its bounds
(with a nonzero pre-clip quad extent and texture extent on that axis), the
conversion rescales the corresponding texture-coordinate edge so that the
retained texture-coordinate fraction equals the retained geometric
fraction on that axis, anchored at the opposite texture edge, and the
coordinates of the three unclipped edges — geometric and texture — are
unchanged.  The four conjuncts cover the four edges (max-x, min-x, max-y,
min-y). -/
theorem clip_single_edge_aspect (v : GlyphVertex) :
    ((glRect0 v).max.x > (glBounds v).max.x →
      ¬(glRect0 v).min.x < (glBounds v).min.x →
      ¬(glRect0 v).max.y > (glBounds v).max.y →
      ¬(glRect0 v).min.y < (glBounds v).min.y →
      (glRect0 v).width ≠ 0 → v.tex_coords.width ≠ 0 →
      ((clippedTex v).width / v.tex_coords.width =
          (clippedRect v).width / (glRect0 v).width ∧
        (clippedTex v).min.x = v.tex_coords.min.x ∧
        (clippedTex v).min.y = v.tex_coords.min.y ∧
        (clippedTex v).max.y = v.tex_coords.max.y ∧
        (clippedRect v).min.x = (glRect0 v).min.x ∧
        (clippedRect v).min.y = (glRect0 v).min.y ∧
        (clippedRect v).max.y = (glRect0 v).max.y)) ∧
    (¬(glRect0 v).max.x > (glBounds v).max.x →
      (glRect0 v).min.x < (glBounds v).min.x →
      ¬(glRect0 v).max.y > (glBounds v).max.y →
      ¬(glRect0 v).min.y < (glBounds v).min.y →
      (glRect0 v).width ≠ 0 → v.tex_coords.width ≠ 0 →
      ((clippedTex v).width / v.tex_coords.width =
          (clippedRect v).width / (glRect0 v).width ∧
        (clippedTex v).max.x = v.tex_coords.max.x ∧
        (clippedTex v).min.y = v.tex_coords.min.y ∧
        (clippedTex v).max.y = v.tex_coords.max.y ∧
        (clippedRect v).max.x = (glRect0 v).max.x ∧
        (clippedRect v).min.y = (glRect0 v).min.y ∧
        (clippedRect v).max.y = (glRect0 v).max.y)) ∧
    (¬(glRect0 v).max.x > (glBounds v).max.x →
      ¬(glRect0 v).min.x < (glBounds v).min.x →
      (glRect0 v).max.y > (glBounds v).max.y →
      ¬(glRect0 v).min.y < (glBounds v).min.y →
      (glRect0 v).height ≠ 0 → v.tex_coords.height ≠ 0 →
      ((clippedTex v).height / v.tex_coords.height =
          (clippedRect v).height / (glRect0 v).height ∧
        (clippedTex v).min.y = v.tex_coords.min.y ∧
        (clippedTex v).min.x = v.tex_coords.min.x ∧
        (clippedTex v).max.x = v.tex_coords.max.x ∧
        (clippedRect v).min.y = (glRect0 v).min.y ∧
        (clippedRect v).min.x = (glRect0 v).min.x ∧
        (clippedRect v).max.x = (glRect0 v).max.x)) ∧
    (¬(glRect0 v).max.x > (glBounds v).max.x →
      ¬(glRect0 v).min.x < (glBounds v).min.x →
      ¬(glRect0 v).max.y > (glBounds v).max.y →
      (glRect0 v).min.y < (glBounds v).min.y →
      (glRect0 v).height ≠ 0 → v.tex_coords.height ≠ 0 →
      ((clippedTex v).height / v.tex_coords.height =
          (clippedRect v).height / (glRect0 v).height ∧
        (clippedTex v).max.y = v.tex_coords.max.y ∧
        (clippedTex v).min.x = v.tex_coords.min.x ∧
        (clippedTex v).max.x = v.tex_coords.max.x ∧
        (clippedRect v).max.y = (glRect0 v).max.y ∧
        (clippedRect v).min.x = (glRect0 v).min.x ∧
        (clippedRect v).max.x = (glRect0 v).max.x)) := by
  refine ⟨fun hc1 hc2 hc3 hc4 hw ht => ?_, fun hc1 hc2 hc3 hc4 hw ht => ?_,
    fun hc1 hc2 hc3 hc4 hw ht => ?_, fun hc1 hc2 hc3 hc4 hw ht => ?_⟩
  · have e := clipAll_only_maxX v.tex_coords hc1 hc2 hc3 hc4
    unfold clippedRect clippedTex
    rw [e]
    refine ⟨?_, rfl, rfl, rfl, rfl, rfl, rfl⟩
    simp only [Rect.width] at hw ht ⊢
    field_simp
    ring
  · have e := clipAll_only_minX v.tex_coords hc1 hc2 hc3 hc4
    unfold clippedRect clippedTex
    rw [e]
    refine ⟨?_, rfl, rfl, rfl, rfl, rfl, rfl⟩
    simp only [Rect.width] at hw ht ⊢
    field_simp
    ring
  · have e := clipAll_only_maxY v.tex_coords hc1 hc2 hc3 hc4
    unfold clippedRect clippedTex
    rw [e]
    refine ⟨?_, rfl, rfl, rfl, rfl, rfl, rfl⟩
    simp only [Rect.height] at hw ht ⊢
    field_simp
    ring
  · have e := clipAll_only_minY v.tex_coords hc1 hc2 hc3 hc4
    unfold clippedRect clippedTex
    rw [e]
    refine ⟨?_, rfl, rfl, rfl, rfl, rfl, rfl⟩
    simp only [Rect.height] at hw ht ⊢
    field_simp
    ring

/-- Witness for C1 at the concrete descriptor `vClipX`, clipped exactly on
the max-x edge. -/
theorem clip_single_edge_aspect_witness :
    ((glRect0 vClipX).max.x > (glBounds vClipX).max.x ∧
      ¬(glRect0 vClipX).min.x < (glBounds vClipX).min.x ∧
      ¬(glRect0 vClipX).max.y > (glBounds vClipX).max.y ∧
      ¬(glRect0 vClipX).min.y < (glBounds vClipX).min.y ∧
      (glRect0 vClipX).width ≠ 0 ∧ vClipX.tex_coords.width ≠ 0) ∧
    ((clippedTex vClipX).width / vClipX.tex_coords.width =
        (clippedRect vClipX).width / (glRect0 vClipX).width ∧
      (clippedTex vClipX).min.x = vClipX.tex_coords.min.x ∧
      (clippedTex vClipX).min.y = vClipX.tex_coords.min.y ∧
      (clippedTex vClipX).max.y = vClipX.tex_coords.max.y ∧
      (clippedRect vClipX).min.x = (glRect0 vClipX).min.x ∧
      (clippedRect vClipX).min.y = (glRect0 vClipX).min.y ∧
      (clippedRect vClipX).max.y = (glRect0 vClipX).max.y) :=
  ⟨⟨by norm_num [glRect0, glBounds, vClipX, toNDC],
    by norm_num [glRect0, glBounds, vClipX, toNDC],
    by norm_num [glRect0, glBounds, vClipX, toNDC],
    by norm_num [glRect0, glBounds, vClipX, toNDC],
    by norm_num [glRect0, vClipX, toNDC, Rect.width],
    by norm_num [vClipX, Rect.width]⟩,
    (clip_single_edge_aspect vClipX).1
      (by norm_num [glRect0, glBounds, vClipX, toNDC])
      (by norm_num [glRect0, glBounds, vClipX, toNDC])
      (by norm_num [glRect0, glBounds, vClipX, toNDC])
      (by norm_num [glRect0, glBounds, vClipX, toNDC])
      (by norm_num [glRect0, vClipX, toNDC, Rect.width])
      (by norm_num [vClipX, Rect.width])⟩

/-- Counterexample to C7 as stated: the descriptor `vOutside` has its pixel
quad fully outside its bounds on the x axis, yet the emitted instance's
quad has width `-1/2` on that axis, not zero. -/
theorem quad_outside_width_not_zero :
    vOutside.bounds.max.x ≤ (vOutside.pixel_coords.min.x : ℚ) ∧
    (Instance.fromVertex vOutside).right_bottom.x -
        (Instance.fromVertex vOutside).left_top.x ≠ 0 := by
  constructor
  · norm_num [vOutside]
  · have e := clipAll_only_maxX (b := glBounds vOutside)
      (r := glRect0 vOutside) vOutside.tex_coords
      (by norm_num [glRect0, glBounds, vOutside, toNDC])
      (by norm_num [glRect0, glBounds, vOutside, toNDC])
      (by norm_num [glRect0, glBounds, vOutside, toNDC])
      (by norm_num [glRect0, glBounds, vOutside, toNDC])
    simp only [Instance.fromVertex, e]
    norm_num [glRect0, glBounds, vOutside, toNDC]

/-- C7 (amended): for every descriptor (positive screen dimensions,
well-formed bounds and quad on the axis) whose pixel quad lies fully
outside its bounds on one axis, the conversion still emits an instance —
it is a total function — and the emitted quad is degenerate on that axis:
its width (resp. height) is non-positive, zero or negative, rather than
exactly zero. -/
theorem quad_outside_axis_degenerate (v : GlyphVertex) :
    (0 < v.screen_dimensions.1 →
      v.bounds.min.x ≤ v.bounds.max.x →
      (v.pixel_coords.min.x : ℚ) ≤ (v.pixel_coords.max.x : ℚ) →
      (v.bounds.max.x ≤ (v.pixel_coords.min.x : ℚ) ∨
        (v.pixel_coords.max.x : ℚ) ≤ v.bounds.min.x) →
      (Instance.fromVertex v).right_bottom.x ≤
        (Instance.fromVertex v).left_top.x) ∧
    (0 < v.screen_dimensions.2 →
      v.bounds.min.y ≤ v.bounds.max.y →
      (v.pixel_coords.min.y : ℚ) ≤ (v.pixel_coords.max.y : ℚ) →
      (v.bounds.max.y ≤ (v.pixel_coords.min.y : ℚ) ∨
        (v.pixel_coords.max.y : ℚ) ≤ v.bounds.min.y) →
      (Instance.fromVertex v).left_top.y ≤
        (Instance.fromVertex v).right_bottom.y) := by
  constructor
  · intro hw hb hq hout
    have hbn : (glBounds v).min.x ≤ (glBounds v).max.x := toNDC_mono hw hb
    have hqn : (glRect0 v).min.x ≤ (glRect0 v).max.x := toNDC_mono hw hq
    have houtn : (glBounds v).max.x ≤ (glRect0 v).min.x ∨
        (glRect0 v).max.x ≤ (glBounds v).min.x :=
      hout.imp (toNDC_mono hw) (toNDC_mono hw)
    show (clipAll (glBounds v) (glRect0 v) v.tex_coords).1.max.x ≤
      (clipAll (glBounds v) (glRect0 v) v.tex_coords).1.min.x
    rw [clipAll_fst]
    dsimp only
    rcases houtn with h | h <;> split_ifs with h1 h2 <;> linarith
  · intro hh hb hq hout
    have hbn : (glBounds v).min.y ≤ (glBounds v).max.y := toNDC_mono hh hb
    have hqn : (glRect0 v).min.y ≤ (glRect0 v).max.y := toNDC_mono hh hq
    have houtn : (glBounds v).max.y ≤ (glRect0 v).min.y ∨
        (glRect0 v).max.y ≤ (glBounds v).min.y :=
      hout.imp (toNDC_mono hh) (toNDC_mono hh)
    show (clipAll (glBounds v) (glRect0 v) v.tex_coords).1.max.y ≤
      (clipAll (glBounds v) (glRect0 v) v.tex_coords).1.min.y
    rw [clipAll_fst]
    dsimp only
    rcases houtn with h | h <;> split_ifs with h1 h2 <;> linarith

/-- Witness for the amended C7 at the concrete descriptor `vOutside`. -/
theorem quad_outside_axis_degenerate_witness :
    (0 < vOutside.screen_dimensions.1 ∧
      vOutside.bounds.min.x ≤ vOutside.bounds.max.x ∧
      (vOutside.pixel_coords.min.x : ℚ) ≤ (vOutside.pixel_coords.max.x : ℚ) ∧
      vOutside.bounds.max.x ≤ (vOutside.pixel_coords.min.x : ℚ)) ∧
    (Instance.fromVertex vOutside).right_bottom.x ≤
      (Instance.fromVertex vOutside).left_top.x :=
  ⟨⟨by norm_num [vOutside], by norm_num [vOutside], by norm_num [vOutside],
    by norm_num [vOutside]⟩,
    (quad_outside_axis_degenerate vOutside).1 (by norm_num [vOutside])
      (by norm_num [vOutside]) (by norm_num [vOutside])
      (Or.inl (by norm_num [vOutside]))⟩

/-- C8: `increase_cache_size(width, height)` replaces the cache by a newly
created one at the given dimensions and rebuilds the bind group to
reference the new cache's view, while the render pipeline object, the
sampler, the transform buffer, the instance buffer and
`current_instances` (and the bind-group layout) are left unchanged. -/
theorem increase_cache_size_effect (p : Pipeline) (d : Device) (w h : ℕ) :
    (p.increase_cache_size d w h).1.cache = (Cache.new d w h).1 ∧
    (p.increase_cache_size d w h).1.cache.width = w ∧
    (p.increase_cache_size d w h).1.cache.height = h ∧
    (p.increase_cache_size d w h).1.uniforms =
      createUniforms p.transform.id p.sampler
        (p.increase_cache_size d w h).1.cache.view ∧
    (p.increase_cache_size d w h).1.pipeline = p.pipeline ∧
    (p.increase_cache_size d w h).1.sampler = p.sampler ∧
    (p.increase_cache_size d w h).1.transform = p.transform ∧
    (p.increase_cache_size d w h).1.instances = p.instances ∧
    (p.increase_cache_size d w h).1.uniform_layout = p.uniform_layout ∧
    (p.increase_cache_size d w h).1.current_instances =
      p.current_instances :=
  ⟨rfl, rfl, rfl, rfl, rfl, rfl, rfl, rfl, rfl, rfl⟩

/-- C10: after construction `current_instances` is `0`; every `draw` sets
it to the length of that call's instance slice; `draw`'s last recorded
command is `redraw` of the updated state; and `redraw` — a read-only
function of the pipeline state — issues its render pass with exactly the
recorded instance count, modifying no field. -/
theorem current_instances_tracking :
    (∀ (d : Device) (cw ch : ℕ),
      (Pipeline.new d cw ch).1.current_instances = 0) ∧
    (∀ (p : Pipeline) (d : Device) (instances : List Instance),
      (p.draw d instances).1.current_instances = instances.length) ∧
    (∀ (p : Pipeline) (d : Device) (instances : List Instance),
      ((p.draw d instances).2.1).getLast? =
        some (Pipeline.redraw (p.draw d instances).1)) ∧
    (∀ p : Pipeline, p.redraw =
      Command.renderPass p.pipeline p.uniforms p.instances.id (0, 4)
        (0, p.current_instances)) :=
  ⟨fun _ _ _ => rfl, fun _ _ _ => rfl, fun _ _ _ => rfl, fun _ => rfl⟩

/-- C2 (amended): `draw` always records a copy of exactly
`size_of::<Instance>() * instances.len()` bytes into the instance buffer;
the buffer created by `Pipeline::new` has capacity for exactly
`Instance::MAX = 50,000` instances, so the copy fits whenever
`instances.len() ≤ 50,000`; a longer slice is neither rejected nor
truncated — the recorded copy then exceeds the buffer's capacity. -/
theorem draw_copy_bytes (d0 d : Device) (cw ch : ℕ)
    (instances : List Instance) :
    ((Pipeline.new d0 cw ch).1.draw d instances).2.1[1]? =
      some (Command.copyBufferToBuffer (d.fresh + 1) 0
        (Pipeline.new d0 cw ch).1.instances.id 0
        (Instance.byteSize * instances.length)) ∧
    (Pipeline.new d0 cw ch).1.instances.size =
      Instance.byteSize * Instance.MAX ∧
    (instances.length ≤ Instance.MAX →
      Instance.byteSize * instances.length ≤
        (Pipeline.new d0 cw ch).1.instances.size) ∧
    (Instance.MAX < instances.length →
      (Pipeline.new d0 cw ch).1.instances.size <
        Instance.byteSize * instances.length) := by
  refine ⟨rfl, rfl, fun hle => ?_, fun hgt => ?_⟩
  · show Instance.byteSize * instances.length ≤
      Instance.byteSize * Instance.MAX
    exact Nat.mul_le_mul_left _ hle
  · show Instance.byteSize * Instance.MAX <
      Instance.byteSize * instances.length
    simp only [Instance.byteSize, Instance.MAX] at hgt ⊢
    omega

/-- Witness for the amended C2: a 1-instance upload fits the capacity, and
a 50,001-instance upload exceeds it. -/
theorem draw_copy_bytes_witness :
    ((List.replicate 1 inst0).length ≤ Instance.MAX ∧
      Instance.byteSize * (List.replicate 1 inst0).length ≤
        (Pipeline.new dev0 256 256).1.instances.size) ∧
    (Instance.MAX < (List.replicate 50001 inst0).length ∧
      (Pipeline.new dev0 256 256).1.instances.size <
        Instance.byteSize * (List.replicate 50001 inst0).length) :=
  ⟨⟨by rw [List.length_replicate]; decide,
    (draw_copy_bytes dev0 dev0 256 256 (List.replicate 1 inst0)).2.2.1
      (by rw [List.length_replicate]; decide)⟩,
   ⟨by rw [List.length_replicate]; decide,
    (draw_copy_bytes dev0 dev0 256 256 (List.replicate 50001 inst0)).2.2.2
      (by rw [List.length_replicate]; decide)⟩⟩

/-- Counterexample to C2 as stated: calling `draw` with 50,001 instances is
neither rejected nor truncated — the recorded copy into the instance
buffer is `size_of::<Instance>() * 50,001` bytes, strictly more than the
buffer's capacity. -/
theorem draw_over_capacity_not_truncated :
    (List.replicate 50001 inst0).length = 50001 ∧
    ((Pipeline.new dev0 256 256).1.draw dev0
        (List.replicate 50001 inst0)).2.1[1]? =
      some (Command.copyBufferToBuffer 1 0
        (Pipeline.new dev0 256 256).1.instances.id 0
        (Instance.byteSize * (List.replicate 50001 inst0).length)) ∧
    (Pipeline.new dev0 256 256).1.instances.size <
      Instance.byteSize * (List.replicate 50001 inst0).length := by
  refine ⟨List.length_replicate _ _, rfl, ?_⟩
  rw [List.length_replicate]
  show Instance.byteSize * Instance.MAX < Instance.byteSize * 50001
  simp only [Instance.byteSize, Instance.MAX]
  omega

end WgpuGlyph
